import Mathlib

/-!
Verification of the Roborock vacuum entity adapter
(`custom_components/roborock/vacuum.py`).

The adapter wraps a device descriptor dictionary and a request/response
client.  We embed the Python values it manipulates as `PyValue`, the
entity's mutable fields as `Entity`, and the client as a response stream
together with a log of the requests issued (`ClientState`), so that the
commands an operation sends are observable in the theorems.
-/

namespace Roborock

/-- A Python-like value, as exchanged with the Roborock client: `None`,
booleans, integers, strings, lists, and dictionaries.  A dictionary is its
list of key/value entries in insertion order (Python dicts preserve
insertion order and have pairwise distinct keys). -/
inductive PyValue : Type
  | none : PyValue
  | bool : Bool → PyValue
  | int : Int → PyValue
  | str : String → PyValue
  | list : List PyValue → PyValue
  | dict : List (PyValue × PyValue) → PyValue

mutual

/-- Structural equality on `PyValue`.  It coincides with CPython `==` on
every comparison the adapter performs with a string or `None` operand
(string-keyed `get` lookups, `v == fan_speed` where `fan_speed` is a
string, `is not None`), because in CPython no non-string compares equal to
a string and nothing but `None` compares equal to `None`.  It is NOT
CPython `==` across numeric kinds (`True == 1` there): lookups whose key
is an arbitrary snapshot value go through `PyValue.keyEq` and
`pyGetChecked` below instead. -/
def PyValue.beq : PyValue → PyValue → Bool
  | .none, .none => true
  | .bool a, .bool b => a == b
  | .int a, .int b => a == b
  | .str a, .str b => a == b
  | .list xs, .list ys => beqList xs ys
  | .dict xs, .dict ys => beqEntries xs ys
  | _, _ => false

/-- Elementwise `PyValue.beq` on lists. -/
def beqList : List PyValue → List PyValue → Bool
  | [], [] => true
  | x :: xs, y :: ys => PyValue.beq x y && beqList xs ys
  | _, _ => false

/-- Elementwise `PyValue.beq` on dictionary entries. -/
def beqEntries : List (PyValue × PyValue) → List (PyValue × PyValue) → Bool
  | [], [] => true
  | (k, v) :: xs, (l, w) :: ys => PyValue.beq k l && PyValue.beq v w && beqEntries xs ys
  | _, _ => false

end

/-- Python `isinstance(v, dict)`. -/
def PyValue.isDict : PyValue → Bool
  | .dict _ => true
  | _ => false

/-- The entries of a dictionary value (meaningful only under `isDict`). -/
def PyValue.dictEntries : PyValue → List (PyValue × PyValue)
  | .dict d => d
  | _ => []

/-- Python `d.get(k)` for a string-literal key `k` (the adapter's
`"duid"`, `"name"`, `"model"`, `"state"`, `"battery"`, `"fan_power"`
lookups): the value of the first entry whose key equals `k`, or `None`
when no key matches (one-argument `get` defaults to `None`).  A string
key is hashable, and equality of any stored key with a string is
structural in CPython, so `PyValue.beq` is faithful here.  The general
`d.get(k)` with an arbitrary key — where CPython hashes `k`, raising
`TypeError` on unhashable values, and compares with `True == 1` — is
`pyGetChecked` below. -/
def pyGet (d : List (PyValue × PyValue)) (k : PyValue) : PyValue :=
  match d.find? (fun p => PyValue.beq p.1 k) with
  | some p => p.2
  | Option.none => PyValue.none

/-- CPython `==` restricted to the hashable primitives that can reach a
dictionary lookup as its key (`None`, `bool`, `int`, `str`): `bool` is a
subtype of `int` in CPython, so `True == 1` and `False == 0`; all other
cross-type comparisons among these are unequal.  The right operand is the
lookup key (guaranteed hashable by `pyGetChecked`); stored keys of other
shapes compare unequal to it, as in CPython. -/
def PyValue.keyEq : PyValue → PyValue → Bool
  | .none, .none => true
  | .bool a, .bool b => a == b
  | .bool a, .int m => (if a then (1 : Int) else 0) == m
  | .int n, .bool b => n == (if b then (1 : Int) else 0)
  | .int a, .int b => a == b
  | .str a, .str b => a == b
  | _, _ => false

/-- Whether a value is hashable in CPython: lists and dictionaries are
not, and using one as a dictionary-lookup key raises `TypeError`. -/
def PyValue.hashable : PyValue → Bool
  | .list _ => false
  | .dict _ => false
  | _ => true

/-- Python `d.get(k)` in full generality: `dict.get` first hashes its key,
raising `TypeError` when `k` is unhashable; otherwise it returns the value
of the first entry whose key equals `k` under CPython `==` (with
`True == 1`, `False == 0`), or `None` when no key matches. -/
def pyGetChecked (d : List (PyValue × PyValue)) (k : PyValue) :
    Except String PyValue :=
  if k.hashable then
    Except.ok
      (match d.find? (fun p => PyValue.keyEq p.1 k) with
        | some p => p.2
        | Option.none => PyValue.none)
  else
    Except.error "TypeError"

/-- The mutable fields of a `RoborockVacuum` entity that the analysed code
reads and writes: the device descriptor dictionary `self._device` (fixed at
construction) and the status snapshot dictionary `self._status`.
(`self._name` is `device.get("name")` and is only used for display;
`self._client` is modelled separately as `ClientState`.) -/
structure Entity : Type where
  _device : List (PyValue × PyValue)
  _status : List (PyValue × PyValue)

/-- `RoborockVacuum.__init__`: stores the device descriptor and initialises
the status snapshot to the empty dictionary `{}`. -/
def initEntity (device : List (PyValue × PyValue)) : Entity :=
  ⟨device, []⟩

/-- One request issued to `RoborockClient.send_request`: the device id
(`device.get("duid")`), the command keyword, and the parameters (`None`
when the `params` argument was omitted).  The `True` passed for the
client's fourth (wait-for-response) argument is the same in every call of
the analysed file and is left implicit. -/
structure Request : Type where
  duid : PyValue
  command : String
  params : PyValue

/-- The client, modelled as a stream of responses together with the log of
requests issued so far: the n-th request receives response `responses n`.
This exposes exactly what the adapter can observe (the response to each
call) and what it sends (the log). -/
structure ClientState : Type where
  responses : Nat → PyValue
  sent : List Request

/-- `RoborockClient.send_request(duid, command, params, True)`: returns the
next response of the stream and appends the request to the log. -/
def send_request (cs : ClientState) (duid : PyValue) (command : String)
    (params : PyValue) : PyValue × ClientState :=
  (cs.responses cs.sent.length,
   { cs with sent := cs.sent ++ [⟨duid, command, params⟩] })

/-- `RoborockVacuum.send(command, params=None)`: forwards to the client with
the device's `duid`. -/
def send (e : Entity) (cs : ClientState) (command : String)
    (params : PyValue := PyValue.none) : PyValue × ClientState :=
  send_request cs (pyGet e._device (PyValue.str "duid")) command params

/-- `RoborockVacuum.update`: fetches `get_status`; when the result
`is not None and isinstance(result, dict)` the snapshot is replaced by it
wholesale, otherwise the snapshot is kept.  (`is not None` on the value
`None` coincides with equality to `None`.) -/
def update (e : Entity) (cs : ClientState) : Entity × ClientState :=
  let r := send e cs "get_status"
  let updated_status := r.1
  if (!PyValue.beq updated_status PyValue.none) && updated_status.isDict then
    ({ e with _status := updated_status.dictEntries }, r.2)
  else
    (e, r.2)

namespace VacuumEntityFeature

/-- The host platform's vacuum feature-flag vocabulary
(`homeassistant.components.vacuum.VacuumEntityFeature`, external to this
repository): pairwise distinct power-of-two flags. -/
def TURN_ON : Nat := 1

/-- Host platform feature flag. -/
def TURN_OFF : Nat := 2

/-- Host platform feature flag. -/
def PAUSE : Nat := 4

/-- Host platform feature flag. -/
def STOP : Nat := 8

/-- Host platform feature flag. -/
def RETURN_HOME : Nat := 16

/-- Host platform feature flag. -/
def FAN_SPEED : Nat := 32

/-- Host platform feature flag. -/
def BATTERY : Nat := 64

/-- Host platform feature flag. -/
def STATUS : Nat := 128

/-- Host platform feature flag. -/
def SEND_COMMAND : Nat := 256

/-- Host platform feature flag. -/
def LOCATE : Nat := 512

/-- Host platform feature flag. -/
def CLEAN_SPOT : Nat := 1024

/-- Host platform feature flag. -/
def MAP : Nat := 2048

/-- Host platform feature flag. -/
def STATE : Nat := 4096

/-- Host platform feature flag. -/
def START : Nat := 8192

end VacuumEntityFeature

/-- `RoborockVacuum.supported_features`: the fixed sum of feature flags
written in the source, in source order.  It reads neither the descriptor
nor the snapshot; the `Entity` argument records that it is a property of
the entity. -/
def supported_features (_e : Entity) : Nat :=
  VacuumEntityFeature.TURN_ON
    + VacuumEntityFeature.TURN_OFF
    + VacuumEntityFeature.PAUSE
    + VacuumEntityFeature.STOP
    + VacuumEntityFeature.RETURN_HOME
    + VacuumEntityFeature.FAN_SPEED
    + VacuumEntityFeature.BATTERY
    + VacuumEntityFeature.STATUS
    + VacuumEntityFeature.SEND_COMMAND
    + VacuumEntityFeature.LOCATE
    + VacuumEntityFeature.CLEAN_SPOT
    + VacuumEntityFeature.STATE
    + VacuumEntityFeature.START
    + VacuumEntityFeature.MAP

/-- Python `str + v`: string concatenation succeeds only when the right
operand is a string; on any other value (in particular `None`) CPython
raises `TypeError`, modelled as `Except.error`. -/
def pyStrConcat (a : String) (v : PyValue) : Except String String :=
  match v with
  | PyValue.str s => Except.ok (a ++ s)
  | _ => Except.error "TypeError"

/-- `RoborockVacuum.unique_id`: `"vacuum." + self._device.get("duid")`. -/
def unique_id (e : Entity) : Except String String :=
  pyStrConcat "vacuum." (pyGet e._device (PyValue.str "duid"))

/-- `RoborockVacuum.status` (also returned verbatim by the `state`
property): `STATE_CODE_TO_STRING.get(self._status.get("state"))`.  The
table `STATE_CODE_TO_STRING` lives in the api module of the repository and
is taken as a parameter here.  The inner lookup uses the string key
`"state"`; the outer lookup's key is whatever value the snapshot holds, so
it carries CPython's full `get` semantics (`pyGetChecked`), including the
`TypeError` on an unhashable state code. -/
def status (STATE_CODE_TO_STRING : List (PyValue × PyValue)) (e : Entity) :
    Except String PyValue :=
  match pyGetChecked e._status (PyValue.str "state") with
  | Except.ok state => pyGetChecked STATE_CODE_TO_STRING state
  | Except.error msg => Except.error msg

/-- `RoborockVacuum.battery_level`: `self._status.get("battery")`. -/
def battery_level (e : Entity) : PyValue :=
  pyGet e._status (PyValue.str "battery")

/-- `RoborockVacuum.fan_speed`: `FAN_SPEEDS.get(self._status.get("fan_power"))`.
The table `FAN_SPEEDS` lives in the api module of the repository and is
taken as a parameter here.  As with `status`, the outer lookup's key is an
arbitrary snapshot value, so it uses `pyGetChecked`. -/
def fan_speed (FAN_SPEEDS : List (PyValue × PyValue)) (e : Entity) :
    Except String PyValue :=
  match pyGetChecked e._status (PyValue.str "fan_power") with
  | Except.ok fan_power => pyGetChecked FAN_SPEEDS fan_power
  | Except.error msg => Except.error msg

/-- `RoborockVacuum.fan_speed_list`: `list(FAN_SPEEDS.values())`, the
dictionary's values in insertion order. -/
def fan_speed_list (FAN_SPEEDS : List (PyValue × PyValue)) : List PyValue :=
  FAN_SPEEDS.map Prod.snd

/-- `RoborockVacuum.map` property: `self.send("get_map_v1")`, the client's
result returned verbatim. -/
def map (e : Entity) (cs : ClientState) : PyValue × ClientState :=
  send e cs "get_map_v1"

/-- `RoborockVacuum.start`: `self.send("app_start")`, result discarded
(the method returns `None`), hence the `ClientState` return type. -/
def start (e : Entity) (cs : ClientState) : ClientState :=
  (send e cs "app_start").2

/-- `RoborockVacuum.pause`: `self.send("app_stop")`, result discarded. -/
def pause (e : Entity) (cs : ClientState) : ClientState :=
  (send e cs "app_stop").2

/-- `RoborockVacuum.stop`: `self.send("app_stop")`, result discarded. -/
def stop (e : Entity) (cs : ClientState) : ClientState :=
  (send e cs "app_stop").2

/-- `RoborockVacuum.return_to_base`: `self.send("app_charge")`, result
discarded. -/
def return_to_base (e : Entity) (cs : ClientState) : ClientState :=
  (send e cs "app_charge").2

/-- `RoborockVacuum.clean_spot`: `self.send("app_spot")`, result
discarded. -/
def clean_spot (e : Entity) (cs : ClientState) : ClientState :=
  (send e cs "app_spot").2

/-- `RoborockVacuum.locate`: `self.send("find_me")`, result discarded. -/
def locate (e : Entity) (cs : ClientState) : ClientState :=
  (send e cs "find_me").2

/-- `RoborockVacuum.set_fan_speed`:
`self.send("set_custom_mode", [k for k, v in FAN_SPEEDS.items() if v == fan_speed])`,
result discarded. -/
def set_fan_speed (FAN_SPEEDS : List (PyValue × PyValue)) (e : Entity)
    (cs : ClientState) (fan_speed : String) : ClientState :=
  (send e cs "set_custom_mode"
    (PyValue.list
      ((FAN_SPEEDS.filter (fun p => PyValue.beq p.2 (PyValue.str fan_speed))).map
        Prod.fst))).2

/-- `RoborockVacuum.send_command`: `return self.send(command, params)`, the
raw passthrough. -/
def send_command (e : Entity) (cs : ClientState) (command : String)
    (params : PyValue := PyValue.none) : PyValue × ClientState :=
  send e cs command params

/-- `RoborockVacuum.start_pause`: `self.send("app_pause")`, result
discarded. -/
def start_pause (e : Entity) (cs : ClientState) : ClientState :=
  (send e cs "app_pause").2

/-! Helper lemmas. -/

/-- `PyValue.beq` is propositional equality. -/
theorem beq_iff : ∀ (a b : PyValue), PyValue.beq a b = true ↔ a = b :=
  PyValue.beq.induct
    (fun a b => PyValue.beq a b = true ↔ a = b)
    (fun xs ys => beqEntries xs ys = true ↔ xs = ys)
    (fun xs ys => beqList xs ys = true ↔ xs = ys)
    (by simp [PyValue.beq])
    (fun a b => by simp [PyValue.beq])
    (fun a b => by simp [PyValue.beq])
    (fun a b => by simp [PyValue.beq])
    (fun xs ys ih => by simpa [PyValue.beq] using ih)
    (fun xs ys ih => by simpa [PyValue.beq] using ih)
    (fun t x h1 h2 h3 h4 h5 h6 => by
      cases t <;> cases x <;>
        first
          | exact absurd rfl (fun hh => h1 hh rfl)
          | exact (h2 _ _ rfl rfl).elim
          | exact (h3 _ _ rfl rfl).elim
          | exact (h4 _ _ rfl rfl).elim
          | exact (h5 _ _ rfl rfl).elim
          | exact (h6 _ _ rfl rfl).elim
          | simp [PyValue.beq])
    (by simp [beqList])
    (fun x xs y ys ih1 ih3 => by simp [beqList, ih1, ih3])
    (fun t x h1 h2 => by
      match t, x with
      | [], [] => exact (h1 rfl rfl).elim
      | a :: as, b :: bs => exact (h2 a as b bs rfl rfl).elim
      | [], _ :: _ => simp [beqList]
      | _ :: _, [] => simp [beqList])
    (by simp [beqEntries])
    (fun k v xs l w ys ihk ihv ih2 => by simp [beqEntries, ihk, ihv, ih2])
    (fun t x h1 h2 => by
      match t, x with
      | [], [] => exact (h1 rfl rfl).elim
      | (k, v) :: xs, (l, w) :: ys => exact (h2 k v xs l w ys rfl rfl).elim
      | [], _ :: _ => simp [beqEntries]
      | _ :: _, [] => simp [beqEntries])

/-- A lookup with a key that is not among the dictionary's keys yields
`None`. -/
theorem pyGet_eq_none_of_not_mem_keys {d : List (PyValue × PyValue)}
    {k : PyValue} (h : k ∉ d.map Prod.fst) : pyGet d k = PyValue.none := by
  unfold pyGet
  have hf : d.find? (fun p => PyValue.beq p.1 k) = Option.none := by
    rw [List.find?_eq_none]
    intro p hp hbeq
    exact h (List.mem_map.mpr ⟨p, hp, (beq_iff p.1 k).mp hbeq⟩)
  rw [hf]

/-! Claim theorems. -/

/-- Claim C1: `update` (the refresh operation) issues one `get_status`
request; it replaces the stored snapshot wholesale exactly when the
client's result is a mapping, and on any other result (including the
failure value `None`) it leaves the prior snapshot unchanged.  `update` is
a total function, so no exception propagates. -/
theorem update_replaces_snapshot_iff_mapping (e : Entity) (cs : ClientState) :
    (∀ d, cs.responses cs.sent.length = PyValue.dict d →
      (update e cs).1 = { e with _status := d })
    ∧ ((cs.responses cs.sent.length).isDict = false → (update e cs).1 = e)
    ∧ (update e cs).2 = { cs with sent := cs.sent ++
        [⟨pyGet e._device (PyValue.str "duid"), "get_status", PyValue.none⟩] } := by
  refine ⟨?_, ?_, ?_⟩
  · intro d hd
    simp [update, send, send_request, hd, PyValue.beq, PyValue.isDict,
      PyValue.dictEntries]
  · intro hnd
    rcases hres : cs.responses cs.sent.length with _ | b | n | s | xs | ds
    · simp [update, send, send_request, hres, PyValue.beq, PyValue.isDict]
    · simp [update, send, send_request, hres, PyValue.beq, PyValue.isDict]
    · simp [update, send, send_request, hres, PyValue.beq, PyValue.isDict]
    · simp [update, send, send_request, hres, PyValue.beq, PyValue.isDict]
    · simp [update, send, send_request, hres, PyValue.beq, PyValue.isDict]
    · rw [hres] at hnd
      simp [PyValue.isDict] at hnd
  · rcases hres : cs.responses cs.sent.length with _ | b | n | s | xs | ds <;>
      simp [update, send, send_request, hres, PyValue.beq, PyValue.isDict]

/-- Claim C1, witness: a concrete refresh whose client returns the mapping
`{"state": 8}` replaces the prior snapshot `{"battery": 50}` entirely. -/
theorem update_replaces_snapshot_iff_mapping_witness :
    (update ⟨[], [(PyValue.str "battery", PyValue.int 50)]⟩
        ⟨fun _ => PyValue.dict [(PyValue.str "state", PyValue.int 8)], []⟩).1
      = ⟨[], [(PyValue.str "state", PyValue.int 8)]⟩ :=
  (update_replaces_snapshot_iff_mapping _ _).1 _ rfl

/-- Claim C2: `set_fan_speed L` sends exactly one `set_custom_mode` command
whose parameter list contains exactly the codes mapped to label `L` by the
fan-speed table — empty when no code maps to `L` — and, under the
dictionary invariant that keys are pairwise distinct, without repetition. -/
theorem set_fan_speed_sends_codes_of_label (FAN_SPEEDS : List (PyValue × PyValue))
    (e : Entity) (cs : ClientState) (L : String) :
    ∃ ps : List PyValue,
      set_fan_speed FAN_SPEEDS e cs L =
        { cs with sent := cs.sent ++
            [⟨pyGet e._device (PyValue.str "duid"), "set_custom_mode",
              PyValue.list ps⟩] }
      ∧ (∀ k, k ∈ ps ↔ (k, PyValue.str L) ∈ FAN_SPEEDS)
      ∧ ((∀ k, (k, PyValue.str L) ∉ FAN_SPEEDS) → ps = [])
      ∧ ((FAN_SPEEDS.map Prod.fst).Nodup → ps.Nodup) := by
  refine ⟨(FAN_SPEEDS.filter
      (fun p => PyValue.beq p.2 (PyValue.str L))).map Prod.fst, ?_, ?_, ?_, ?_⟩
  · rfl
  · intro k
    constructor
    · intro hk
      rcases List.mem_map.mp hk with ⟨p, hp, hpk⟩
      rcases List.mem_filter.mp hp with ⟨hmem, hbeq⟩
      have h2 : p.2 = PyValue.str L := (beq_iff p.2 (PyValue.str L)).mp hbeq
      rcases p with ⟨a, b⟩
      cases hpk
      cases h2
      exact hmem
    · intro hk
      exact List.mem_map.mpr ⟨(k, PyValue.str L),
        List.mem_filter.mpr ⟨hk, (beq_iff _ _).mpr rfl⟩, rfl⟩
  · intro h
    rw [List.eq_nil_iff_forall_not_mem]
    intro k hk
    rcases List.mem_map.mp hk with ⟨p, hp, hpk⟩
    rcases List.mem_filter.mp hp with ⟨hmem, hbeq⟩
    have h2 : p.2 = PyValue.str L := (beq_iff p.2 (PyValue.str L)).mp hbeq
    rcases p with ⟨a, b⟩
    cases hpk
    cases h2
    exact h _ hmem
  · intro hkeys
    exact hkeys.sublist ((List.filter_sublist _).map Prod.fst)

/-- Claim C2, witness: the theorem instantiated at the concrete table
`{101: "Quiet", 102: "Turbo", 103: "Turbo"}`, the label `"Turbo"` and a
fresh client. -/
theorem set_fan_speed_sends_codes_of_label_witness :
    ∃ ps : List PyValue,
      set_fan_speed
          [(PyValue.int 101, PyValue.str "Quiet"),
           (PyValue.int 102, PyValue.str "Turbo"),
           (PyValue.int 103, PyValue.str "Turbo")]
          ⟨[(PyValue.str "duid", PyValue.str "abc123")], []⟩
          ⟨fun _ => PyValue.none, []⟩ "Turbo" =
        { responses := fun _ => PyValue.none,
          sent := [] ++
            [⟨pyGet [(PyValue.str "duid", PyValue.str "abc123")]
                (PyValue.str "duid"), "set_custom_mode", PyValue.list ps⟩] }
      ∧ (∀ k, k ∈ ps ↔ (k, PyValue.str "Turbo") ∈
          [(PyValue.int 101, PyValue.str "Quiet"),
           (PyValue.int 102, PyValue.str "Turbo"),
           (PyValue.int 103, PyValue.str "Turbo")])
      ∧ ((∀ k, (k, PyValue.str "Turbo") ∉
          [(PyValue.int 101, PyValue.str "Quiet"),
           (PyValue.int 102, PyValue.str "Turbo"),
           (PyValue.int 103, PyValue.str "Turbo")]) → ps = [])
      ∧ (([(PyValue.int 101, PyValue.str "Quiet"),
           (PyValue.int 102, PyValue.str "Turbo"),
           (PyValue.int 103, PyValue.str "Turbo")].map Prod.fst).Nodup →
          ps.Nodup) :=
  set_fan_speed_sends_codes_of_label _ _ _ "Turbo"

/-- Claim C3, counterexample: with table contents `{101: "Quiet", 102: "Quiet"}`
(two codes sharing one label), `fan_speed_list` returns `["Quiet", "Quiet"]`,
which has a duplicate entry — refuting the claim's "no duplicate entries,
for every possible contents of the table". -/
theorem fan_speed_list_duplicate_counterexample :
    ¬ (fan_speed_list
        [(PyValue.int 101, PyValue.str "Quiet"),
         (PyValue.int 102, PyValue.str "Quiet")]).Nodup :=
  fun h => (List.nodup_cons.mp h).1 (List.mem_singleton.mpr rfl)

/-- Claim C3 (amended): `fan_speed_list` returns the labels of the
fan-speed table in table order; its members are exactly the labels
appearing as values of the table, and it is free of duplicates precisely
when no two entries of the table share a label. -/
theorem fan_speed_list_labels (FAN_SPEEDS : List (PyValue × PyValue)) :
    (∀ l, l ∈ fan_speed_list FAN_SPEEDS ↔ ∃ k, (k, l) ∈ FAN_SPEEDS)
    ∧ ((fan_speed_list FAN_SPEEDS).Nodup ↔
        List.Pairwise (fun p q : PyValue × PyValue => p.2 ≠ q.2) FAN_SPEEDS) := by
  constructor
  · intro l
    rw [fan_speed_list, List.mem_map]
    constructor
    · rintro ⟨⟨a, b⟩, hmem, rfl⟩
      exact ⟨a, hmem⟩
    · rintro ⟨k, hk⟩
      exact ⟨(k, l), hk, rfl⟩
  · rw [fan_speed_list, List.Nodup, List.pairwise_map]

/-- Claim C3, witness: the label characterisation applied at the table
`{101: "Quiet"}`. -/
theorem fan_speed_list_labels_witness :
    PyValue.str "Quiet" ∈ fan_speed_list [(PyValue.int 101, PyValue.str "Quiet")] :=
  ((fan_speed_list_labels _).1 _).mpr ⟨PyValue.int 101, List.mem_singleton.mpr rfl⟩

/-- Claim C4: `unique_id` is deterministic and depends only on the device
descriptor's `duid`: two entities whose descriptors agree on `duid` get the
same identity, whatever the rest of the descriptor and the snapshot; and a
descriptor with duid `"abc123"` yields `"vacuum.abc123"` for every
snapshot. -/
theorem unique_id_depends_only_on_duid :
    (∀ e₁ e₂ : Entity,
      pyGet e₁._device (PyValue.str "duid") = pyGet e₂._device (PyValue.str "duid") →
      unique_id e₁ = unique_id e₂)
    ∧ (∀ snapshot : List (PyValue × PyValue),
      unique_id ⟨[(PyValue.str "duid", PyValue.str "abc123")], snapshot⟩
        = Except.ok "vacuum.abc123") := by
  constructor
  · intro e₁ e₂ h
    rw [unique_id, unique_id, h]
  · intro snapshot
    rfl

/-- Claim C4, witness: the concrete identity of duid `"abc123"` with a
nonempty descriptor remainder and snapshot, by the theorem itself. -/
theorem unique_id_depends_only_on_duid_witness :
    unique_id ⟨[(PyValue.str "duid", PyValue.str "abc123")],
        [(PyValue.str "battery", PyValue.int 50)]⟩
      = Except.ok "vacuum.abc123" :=
  unique_id_depends_only_on_duid.2 _

/-- Claim C5, counterexample: the snapshot `{"state": []}` (reachable,
since `update` stores any dictionary the client returns) has a state code
absent from the table `{1: "Starting"}`, yet `status` raises `TypeError` —
in CPython `dict.get` hashes its key and `[]` is unhashable — instead of
returning the absent value.  This refutes "returns an absent value and
never raises an error". -/
theorem status_unhashable_state_raises_counterexample :
    status [(PyValue.int 1, PyValue.str "Starting")]
        ⟨[], [(PyValue.str "state", PyValue.list [])]⟩
      = Except.error "TypeError" := rfl

/-- Claim C5 (amended): for every snapshot whose raw state code — `None`
for the empty snapshot or one lacking a `"state"` entry — is hashable and
equals no key of the state-code table under CPython `==` (`True == 1`,
`False == 0`), `status` returns the absent value `None` and raises no
error; when the snapshot's state code is unhashable (a list or a
dictionary), `status` instead raises `TypeError` from the table lookup. -/
theorem status_unknown_hashable_state_yields_none
    (STATE_CODE_TO_STRING : List (PyValue × PyValue)) (e : Entity) :
    (∀ v, pyGetChecked e._status (PyValue.str "state") = Except.ok v →
      v.hashable = true →
      (∀ p ∈ STATE_CODE_TO_STRING, PyValue.keyEq p.1 v = false) →
      status STATE_CODE_TO_STRING e = Except.ok PyValue.none)
    ∧ (∀ v, pyGetChecked e._status (PyValue.str "state") = Except.ok v →
      v.hashable = false →
      status STATE_CODE_TO_STRING e = Except.error "TypeError") := by
  constructor
  · intro v hv hhash habs
    have hfind : STATE_CODE_TO_STRING.find? (fun p => PyValue.keyEq p.1 v)
        = Option.none := by
      rw [List.find?_eq_none]
      intro p hp hkey
      rw [habs p hp] at hkey
      exact Bool.false_ne_true hkey
    unfold status
    rw [hv]
    show pyGetChecked STATE_CODE_TO_STRING v = Except.ok PyValue.none
    simp [pyGetChecked, hhash, hfind]
  · intro v hv hhash
    unfold status
    rw [hv]
    show pyGetChecked STATE_CODE_TO_STRING v = Except.error "TypeError"
    simp [pyGetChecked, hhash]

/-- Claim C5, witness: the empty snapshot (state code `None`, hashable,
matching no key) against the concrete table `{1: "Starting", 8: "Charging"}`
yields the absent value. -/
theorem status_unknown_hashable_state_yields_none_witness :
    status [(PyValue.int 1, PyValue.str "Starting"),
            (PyValue.int 8, PyValue.str "Charging")]
        ⟨[], []⟩ = Except.ok PyValue.none :=
  (status_unknown_hashable_state_yields_none _ _).1 PyValue.none rfl rfl (by
    intro p hp
    rcases List.mem_cons.mp hp with h | h
    · rw [h]
      rfl
    · rw [List.mem_singleton.mp h]
      rfl)

/-- Claim C6: each of the seven command operations forwards exactly one
fixed command keyword to the client with no parameters (`None`), discards
the client's result (the operations return only the client state), and
does so for every device state and every client response stream. -/
theorem command_ops_send_single_fixed_command (e : Entity) (cs : ClientState) :
    start e cs = { cs with sent := cs.sent ++
        [⟨pyGet e._device (PyValue.str "duid"), "app_start", PyValue.none⟩] }
    ∧ pause e cs = { cs with sent := cs.sent ++
        [⟨pyGet e._device (PyValue.str "duid"), "app_stop", PyValue.none⟩] }
    ∧ stop e cs = { cs with sent := cs.sent ++
        [⟨pyGet e._device (PyValue.str "duid"), "app_stop", PyValue.none⟩] }
    ∧ return_to_base e cs = { cs with sent := cs.sent ++
        [⟨pyGet e._device (PyValue.str "duid"), "app_charge", PyValue.none⟩] }
    ∧ clean_spot e cs = { cs with sent := cs.sent ++
        [⟨pyGet e._device (PyValue.str "duid"), "app_spot", PyValue.none⟩] }
    ∧ locate e cs = { cs with sent := cs.sent ++
        [⟨pyGet e._device (PyValue.str "duid"), "find_me", PyValue.none⟩] }
    ∧ start_pause e cs = { cs with sent := cs.sent ++
        [⟨pyGet e._device (PyValue.str "duid"), "app_pause", PyValue.none⟩] } :=
  ⟨rfl, rfl, rfl, rfl, rfl, rfl, rfl⟩

/-- Claim C7: every read of the `map` property issues a fresh `get_map_v1`
request and returns the client's raw result for that request verbatim; two
consecutive reads issue two requests, each answered by its own successive
response of the stream — nothing is cached. -/
theorem map_fresh_request_each_read (e : Entity) (cs : ClientState) :
    (map e cs).1 = cs.responses cs.sent.length
    ∧ (map e cs).2 = { cs with sent := cs.sent ++
        [⟨pyGet e._device (PyValue.str "duid"), "get_map_v1", PyValue.none⟩] }
    ∧ (map e (map e cs).2).1 = cs.responses (cs.sent.length + 1)
    ∧ (map e (map e cs).2).2.sent = cs.sent ++
        [⟨pyGet e._device (PyValue.str "duid"), "get_map_v1", PyValue.none⟩,
         ⟨pyGet e._device (PyValue.str "duid"), "get_map_v1", PyValue.none⟩] := by
  refine ⟨rfl, rfl, ?_, ?_⟩
  · simp [map, send, send_request, List.length_append]
  · simp [map, send, send_request]

/-- Claim C8: `supported_features` is one fixed value for every entity —
independent of descriptor and snapshot — and that value is the flag-set
union of exactly the fourteen features of the source: power on/off, pause,
stop, return-to-base, fan speed, battery, status, raw command passthrough,
locate, spot clean, state, start, and map. -/
theorem supported_features_fixed_flag_set :
    (∀ e₁ e₂ : Entity, supported_features e₁ = supported_features e₂)
    ∧ (∀ e : Entity, supported_features e =
        (VacuumEntityFeature.TURN_ON ||| VacuumEntityFeature.TURN_OFF |||
         VacuumEntityFeature.PAUSE ||| VacuumEntityFeature.STOP |||
         VacuumEntityFeature.RETURN_HOME ||| VacuumEntityFeature.FAN_SPEED |||
         VacuumEntityFeature.BATTERY ||| VacuumEntityFeature.STATUS |||
         VacuumEntityFeature.SEND_COMMAND ||| VacuumEntityFeature.LOCATE |||
         VacuumEntityFeature.CLEAN_SPOT ||| VacuumEntityFeature.STATE |||
         VacuumEntityFeature.START ||| VacuumEntityFeature.MAP)) :=
  ⟨fun _ _ => rfl, fun _ => by unfold supported_features; decide⟩

/-- Claim C9: `pause` and `stop` are extensionally equal — both send
`app_stop` — and of all the adapter's typed operations only `start_pause`
sends the `app_pause` keyword: the commands each operation newly issues
are listed, and `app_pause` occurs zero times among the keywords of the
other operations. -/
theorem pause_eq_stop_and_app_pause_only_from_start_pause :
    (∀ (e : Entity) (cs : ClientState), pause e cs = stop e cs)
    ∧ (∀ (e : Entity) (cs : ClientState),
        ((start_pause e cs).sent.drop cs.sent.length).map Request.command
          = ["app_pause"])
    ∧ (∀ (e : Entity) (cs : ClientState),
        ((pause e cs).sent.drop cs.sent.length).map Request.command = ["app_stop"])
    ∧ (∀ (e : Entity) (cs : ClientState),
        ((stop e cs).sent.drop cs.sent.length).map Request.command = ["app_stop"])
    ∧ (∀ (e : Entity) (cs : ClientState),
        ((start e cs).sent.drop cs.sent.length).map Request.command = ["app_start"])
    ∧ (∀ (e : Entity) (cs : ClientState),
        ((return_to_base e cs).sent.drop cs.sent.length).map Request.command
          = ["app_charge"])
    ∧ (∀ (e : Entity) (cs : ClientState),
        ((clean_spot e cs).sent.drop cs.sent.length).map Request.command
          = ["app_spot"])
    ∧ (∀ (e : Entity) (cs : ClientState),
        ((locate e cs).sent.drop cs.sent.length).map Request.command = ["find_me"])
    ∧ (∀ (e : Entity) (cs : ClientState),
        (((update e cs).2).sent.drop cs.sent.length).map Request.command
          = ["get_status"])
    ∧ (∀ (e : Entity) (cs : ClientState),
        (((map e cs).2).sent.drop cs.sent.length).map Request.command
          = ["get_map_v1"])
    ∧ (∀ (t : List (PyValue × PyValue)) (e : Entity) (cs : ClientState) (L : String),
        ((set_fan_speed t e cs L).sent.drop cs.sent.length).map Request.command
          = ["set_custom_mode"])
    ∧ List.count "app_pause"
        ["app_stop", "app_start", "app_charge", "app_spot", "find_me",
         "get_status", "get_map_v1", "set_custom_mode"] = 0 := by
  refine ⟨fun e cs => rfl, ?_, ?_, ?_, ?_, ?_, ?_, ?_, ?_, ?_, ?_, by decide⟩
  · intro e cs
    simp [start_pause, send, send_request, List.drop_append_eq_append_drop]
  · intro e cs
    simp [pause, send, send_request, List.drop_append_eq_append_drop]
  · intro e cs
    simp [stop, send, send_request, List.drop_append_eq_append_drop]
  · intro e cs
    simp [start, send, send_request, List.drop_append_eq_append_drop]
  · intro e cs
    simp [return_to_base, send, send_request, List.drop_append_eq_append_drop]
  · intro e cs
    simp [clean_spot, send, send_request, List.drop_append_eq_append_drop]
  · intro e cs
    simp [locate, send, send_request, List.drop_append_eq_append_drop]
  · intro e cs
    rcases hres : cs.responses cs.sent.length with _ | b | n | s | xs | ds <;>
      simp [update, send, send_request, hres, PyValue.beq, PyValue.isDict,
        List.drop_append_eq_append_drop]
  · intro e cs
    simp [map, send, send_request, List.drop_append_eq_append_drop]
  · intro t e cs L
    simp [set_fan_speed, send, send_request, List.drop_append_eq_append_drop]

/-- Claim C10: `unique_id` is defined only on descriptors carrying a
`duid` key: when the descriptor has none, `device.get("duid")` is `None`
and `"vacuum." + None` raises `TypeError` instead of returning a string. -/
theorem unique_id_raises_without_duid (e : Entity)
    (h : PyValue.str "duid" ∉ e._device.map Prod.fst) :
    unique_id e = Except.error "TypeError" := by
  rw [unique_id, pyGet_eq_none_of_not_mem_keys h]
  rfl

/-- Claim C10, witness: the empty device descriptor. -/
theorem unique_id_raises_without_duid_witness :
    unique_id ⟨[], []⟩ = Except.error "TypeError" :=
  unique_id_raises_without_duid _ (by simp)

end Roborock
